import Mathlib

/-!
Verification of the Terraform-challenge grading engine (`run.py`).

The development embeds the core of `run.py` — the file loader, the
comment-awareness predicate `is_commented_out`, the six per-file checkers,
and the aggregation in `check_all_files` — as executable Lean definitions,
and proves or refutes the specification's claims about them.

Python strings are modelled as Lean `String`s (operated on through
`List Char`), Python `int` as `ℤ` where a value can be negative and `ℕ`
where it cannot, and the CPython binary64 arithmetic in the percent
computation as exact round-to-nearest-even over integers.
-/

/-- ASCII whitespace stripped by Python's `str.strip()`. -/
def isPyWS (c : Char) : Bool :=
  c = ' ' || c = '\t' || c = '\n' || c = '\r' || c = '\x0b' || c = '\x0c'

/-- Python `str.strip()` on a list of characters. -/
def pyStrip (l : List Char) : List Char :=
  ((l.dropWhile isPyWS).reverse.dropWhile isPyWS).reverse

/-- Python `sub in s` (substring containment) on lists of characters. -/
def isSub (p : List Char) : List Char → Bool
  | [] => p.isEmpty
  | c :: rest => p.isPrefixOf (c :: rest) || isSub p rest

/-- Python `pattern in content` on strings. -/
def pyIn (pattern content : String) : Bool :=
  isSub pattern.toList content.toList

/-- Python `content.split('\n')`. -/
def pyLines (content : String) : List (List Char) :=
  content.toList.splitOn '\n'

/-- A line that `is_commented_out` skips: stripped form empty or starting
with `#`. -/
def lineInert (line : List Char) : Bool :=
  (pyStrip line).isEmpty || (pyStrip line).head? = some '#'

/-- The loop body of `is_commented_out` over the split lines. -/
def icoLoop (pat : List Char) : List (List Char) → Bool
  | [] => true
  | line :: rest =>
    if lineInert line then icoLoop pat rest
    else if isSub pat line then false
    else icoLoop pat rest

/-- Embedding of `is_commented_out(content, pattern)` from `run.py`:
`True` when no non-inert line contains the pattern. -/
def is_commented_out (content pattern : String) : Bool :=
  icoLoop pattern.toList (pyLines content)

/-- Python `s.count(p)` for a nonempty needle: non-overlapping occurrences,
scanning left to right; `fuel` bounds the recursion (the list length
always suffices). -/
def pyCountFuel (p : List Char) : ℕ → List Char → ℕ
  | 0, _ => 0
  | _ + 1, [] => 0
  | fuel + 1, c :: rest =>
    if p.isPrefixOf (c :: rest) then pyCountFuel p fuel (rest.drop (p.length - 1)) + 1
    else pyCountFuel p fuel rest

/-- Python `content.count(p)` on strings (nonempty needle). -/
def pyCount (p content : String) : ℕ :=
  pyCountFuel p.toList content.toList.length content.toList

/-- One atomic requirement evaluated against one file: the tuples
`(name, passed, detail)` appended to `checks` in `run.py`. -/
structure CheckItem where
  name : String
  passed : Bool
  detail : String
deriving DecidableEq, Repr

/-- The triple `(checks, points, max_points)` returned by each checker. -/
structure CheckResult where
  checks : List CheckItem
  points : ℤ
  max_points : ℤ
deriving DecidableEq, Repr

/-- Embedding of `ingress_count` from `check_security_tf`: the count of
the ingress block opener minus the count of its commented form. -/
def ingress_count (content : String) : ℤ :=
  (pyCount "ingress \x7b" content : ℤ) - (pyCount "# ingress \x7b" content : ℤ)

/-- The points awarded by the ingress-rules sub-check of
`check_security_tf`. -/
def ingressPoints (content : String) : ℤ :=
  if 3 ≤ ingress_count content then 10
  else if 0 < ingress_count content then ingress_count content * 3
  else 0

/-- The ingress-rules `CheckItem` of `check_security_tf`. -/
def ingressItem (content : String) : CheckItem :=
  if 3 ≤ ingress_count content then
    ⟨"Ingress rules", true, toString (ingress_count content) ++ " rules"⟩
  else if 0 < ingress_count content then
    ⟨"Ingress rules", false, "Only " ++ toString (ingress_count content) ++ " rules (need 3)"⟩
  else ⟨"Ingress rules", false, "Missing"⟩

/-- Embedding of `check_main_tf` from `run.py`. -/
def check_main_tf : Option String → CheckResult
  | none => ⟨[⟨"main.tf exists", false, "File not found"⟩], 0, 10⟩
  | some content =>
    let r1 : CheckItem × ℤ :=
      if pyIn "terraform \x7b" content && !is_commented_out content "terraform \x7b" then
        (⟨"Terraform block", true, "Configured"⟩, 2)
      else (⟨"Terraform block", false, "Not configured or commented"⟩, 0)
    let r2 : CheckItem × ℤ :=
      if pyIn "required_providers" content && pyIn "aws" content
          && !is_commented_out content "required_providers" then
        (⟨"AWS provider defined", true, "hashicorp/aws"⟩, 3)
      else (⟨"AWS provider defined", false, "Missing or commented"⟩, 0)
    let r3 : CheckItem × ℤ :=
      if pyIn "provider \"aws\"" content && !is_commented_out content "provider \"aws\"" then
        (⟨"Provider configured", true, "AWS provider"⟩, 3)
      else (⟨"Provider configured", false, "Missing or commented"⟩, 0)
    let r4 : CheckItem × ℤ :=
      if pyIn "default_tags" content then
        (⟨"Default tags", true, "Configured"⟩, 2)
      else (⟨"Default tags", false, "Missing"⟩, 0)
    ⟨[r1.1, r2.1, r3.1, r4.1], r1.2 + r2.2 + r3.2 + r4.2, 10⟩

/-- Embedding of `check_vpc_tf` from `run.py`. -/
def check_vpc_tf : Option String → CheckResult
  | none => ⟨[⟨"vpc.tf exists", false, "File not found"⟩], 0, 20⟩
  | some content =>
    let r1 : CheckItem × ℤ :=
      if pyIn "resource \"aws_vpc\"" content
          && !is_commented_out content "resource \"aws_vpc\"" then
        (⟨"VPC resource", true, "aws_vpc"⟩, 5)
      else (⟨"VPC resource", false, "Missing or commented"⟩, 0)
    let r2 : CheckItem × ℤ :=
      if pyIn "resource \"aws_subnet\"" content
          && !is_commented_out content "resource \"aws_subnet\"" then
        (⟨"Subnet resource", true, "aws_subnet"⟩, 5)
      else (⟨"Subnet resource", false, "Missing or commented"⟩, 0)
    let r3 : CheckItem × ℤ :=
      if pyIn "resource \"aws_internet_gateway\"" content
          && !is_commented_out content "resource \"aws_internet_gateway\"" then
        (⟨"Internet gateway", true, "aws_internet_gateway"⟩, 4)
      else (⟨"Internet gateway", false, "Missing or commented"⟩, 0)
    let r4 : CheckItem × ℤ :=
      if pyIn "resource \"aws_route_table\"" content
          && !is_commented_out content "resource \"aws_route_table\"" then
        (⟨"Route table", true, "aws_route_table"⟩, 3)
      else (⟨"Route table", false, "Missing or commented"⟩, 0)
    let r5 : CheckItem × ℤ :=
      if pyIn "resource \"aws_route_table_association\"" content
          && !is_commented_out content "resource \"aws_route_table_association\"" then
        (⟨"Route association", true, "aws_route_table_association"⟩, 3)
      else (⟨"Route association", false, "Missing or commented"⟩, 0)
    ⟨[r1.1, r2.1, r3.1, r4.1, r5.1], r1.2 + r2.2 + r3.2 + r4.2 + r5.2, 20⟩

/-- Embedding of `check_security_tf` from `run.py`. -/
def check_security_tf : Option String → CheckResult
  | none => ⟨[⟨"security.tf exists", false, "File not found"⟩], 0, 20⟩
  | some content =>
    let r1 : CheckItem × ℤ :=
      if pyIn "resource \"aws_security_group\"" content
          && !is_commented_out content "resource \"aws_security_group\"" then
        (⟨"Security group", true, "aws_security_group"⟩, 5)
      else (⟨"Security group", false, "Missing or commented"⟩, 0)
    let r2 : CheckItem × ℤ := (ingressItem content, ingressPoints content)
    let r3 : CheckItem × ℤ :=
      if pyIn "egress \x7b" content && !is_commented_out content "egress \x7b" then
        (⟨"Egress rule", true, "All outbound"⟩, 5)
      else (⟨"Egress rule", false, "Missing or commented"⟩, 0)
    ⟨[r1.1, r2.1, r3.1], r1.2 + r2.2 + r3.2, 20⟩

/-- Embedding of `check_ec2_tf` from `run.py`. -/
def check_ec2_tf : Option String → CheckResult
  | none => ⟨[⟨"ec2.tf exists", false, "File not found"⟩], 0, 25⟩
  | some content =>
    let r1 : CheckItem × ℤ :=
      if pyIn "data \"aws_ami\"" content && !is_commented_out content "data \"aws_ami\"" then
        (⟨"AMI data source", true, "aws_ami"⟩, 5)
      else (⟨"AMI data source", false, "Missing or commented"⟩, 0)
    let r2 : CheckItem × ℤ :=
      if pyIn "resource \"aws_instance\"" content
          && !is_commented_out content "resource \"aws_instance\"" then
        (⟨"EC2 instance", true, "aws_instance"⟩, 10)
      else (⟨"EC2 instance", false, "Missing or commented"⟩, 0)
    let r3 : CheckItem × ℤ :=
      if pyIn "user_data" content && !is_commented_out content "user_data" then
        (⟨"User data", true, "Bootstrap script"⟩, 5)
      else (⟨"User data", false, "Missing or commented"⟩, 0)
    let r4 : CheckItem × ℤ :=
      if pyIn "vpc_security_group_ids" content
          && !is_commented_out content "vpc_security_group_ids" then
        (⟨"Security group ref", true, "Attached"⟩, 5)
      else (⟨"Security group ref", false, "Missing or commented"⟩, 0)
    ⟨[r1.1, r2.1, r3.1, r4.1], r1.2 + r2.2 + r3.2 + r4.2, 25⟩

/-- The `required_vars` table of `check_variables_tf`. -/
def required_vars : List (String × ℤ) :=
  [("aws_region", 3), ("project_name", 2), ("vpc_cidr", 3),
   ("instance_type", 3), ("allowed_ssh_cidr", 2)]

/-- One iteration of the `check_variables_tf` loop. -/
def varStep (content : String) (v : String × ℤ) : CheckItem × ℤ :=
  let pattern := "variable \"" ++ v.1 ++ "\""
  if pyIn pattern content && !is_commented_out content pattern then
    (⟨"var." ++ v.1, true, "Defined"⟩, v.2)
  else (⟨"var." ++ v.1, false, "Missing or commented"⟩, 0)

/-- Embedding of `check_variables_tf` from `run.py`. -/
def check_variables_tf : Option String → CheckResult
  | none => ⟨[⟨"variables.tf exists", false, "File not found"⟩], 0, 15⟩
  | some content =>
    let rs := required_vars.map (varStep content)
    ⟨rs.map Prod.fst, (rs.map Prod.snd).sum, 15⟩

/-- The `required_outputs` table of `check_outputs_tf`. -/
def required_outputs : List (String × ℤ) :=
  [("vpc_id", 2), ("instance_id", 2), ("instance_public_ip", 3), ("website_url", 3)]

/-- One iteration of the `check_outputs_tf` loop. -/
def outStep (content : String) (v : String × ℤ) : CheckItem × ℤ :=
  let pattern := "output \"" ++ v.1 ++ "\""
  if pyIn pattern content && !is_commented_out content pattern then
    (⟨"output." ++ v.1, true, "Defined"⟩, v.2)
  else (⟨"output." ++ v.1, false, "Missing or commented"⟩, 0)

/-- Embedding of `check_outputs_tf` from `run.py`. -/
def check_outputs_tf : Option String → CheckResult
  | none => ⟨[⟨"outputs.tf exists", false, "File not found"⟩], 0, 10⟩
  | some content =>
    let rs := required_outputs.map (outStep content)
    ⟨rs.map Prod.fst, (rs.map Prod.snd).sum, 10⟩

/-- Outcome of attempting to read a file, as Python's `open`/`read` can
end: success, `FileNotFoundError`, `PermissionError`, or another
`OSError`. -/
inductive ReadOutcome where
  | ok (text : String)
  | fileNotFound
  | permissionError
  | otherOSError
deriving DecidableEq, Repr

/-- Embedding of `load_tf_content` from `run.py`: `try: open/read` with
`except FileNotFoundError: return None` — only `FileNotFoundError` maps to
the `None` sentinel; every other exception propagates. -/
def load_tf_content : ReadOutcome → Except String (Option String)
  | .ok text => .ok (some text)
  | .fileNotFound => .ok none
  | .permissionError => .error "PermissionError"
  | .otherOSError => .error "OSError"

/-- Round `a / b` (with `b > 0`) to the nearest integer, ties to even —
the rounding used both by IEEE-754 binary64 operations and by Python's
`round`. -/
def rnEvenNat (a b : ℕ) : ℕ :=
  let q := a / b
  let r := a % b
  if 2 * r < b then q
  else if b < 2 * r then q + 1
  else if q % 2 = 0 then q else q + 1

/-- Largest `e' ≥ e` with `b * 2 ^ e' ≤ a`, found by fuelled ascent
(precondition `0 < b ≤ a`; any fuel `≥ log2 (a / b)` is exact). -/
def log2Up (a b : ℕ) : ℕ → ℕ → ℕ
  | 0, e => e
  | fuel + 1, e => if b * 2 ^ (e + 1) ≤ a then log2Up a b fuel (e + 1) else e

/-- Least `k' ≥ k` with `b ≤ a * 2 ^ k'`, found by fuelled ascent
(precondition `0 < a < b`; any fuel `≥ b` is exact). -/
def log2Down (a b : ℕ) : ℕ → ℕ → ℕ
  | 0, k => k
  | fuel + 1, k => if b ≤ a * 2 ^ k then k else log2Down a b fuel (k + 1)

/-- Floor of the base-2 logarithm of `a / b` for positive naturals `a`, `b`. -/
def floorLog2Q (a b : ℕ) : ℤ :=
  if b ≤ a then (log2Up a b a 0 : ℤ) else -(log2Down a b b 1 : ℤ)

/-- Round the positive rational `a / b` to the nearest IEEE-754 binary64
value (normal range), returned as `(m, e)` with value `m * 2 ^ e` and
`2 ^ 52 ≤ m ≤ 2 ^ 53`. -/
def dblRound (a b : ℕ) : ℕ × ℤ :=
  let e := floorLog2Q a b
  let num := a * 2 ^ (52 - e).toNat
  let den := b * 2 ^ (e - 52).toNat
  (rnEvenNat num den, e - 52)

/-- Value of `int((tp / mt) * 100)` as CPython evaluates it for `0 ≤ tp`,
`0 < mt`: correctly rounded binary64 division, binary64 multiplication
by `100.0`, truncation toward zero. -/
def pyPct (tp mt : ℕ) : ℕ :=
  if tp = 0 then 0
  else
    let d1 := dblRound tp mt
    let frac2 : ℕ × ℕ :=
      if 0 ≤ d1.2 then (d1.1 * 100 * 2 ^ d1.2.toNat, 1) else (d1.1 * 100, 2 ^ (-d1.2).toNat)
    let d2 := dblRound frac2.1 frac2.2
    if 0 ≤ d2.2 then d2.1 * 2 ^ d2.2.toNat else d2.1 / 2 ^ (-d2.2).toNat

/-- Value of `int((tp / mt) * 100)` on Python ints (`0 < mt`); binary64 rounding is
symmetric and `int` truncates toward zero, so a negative numerator
negates the positive computation. -/
def pyPctZ (tp mt : ℤ) : ℤ :=
  if 0 ≤ tp then (pyPct tp.toNat mt.toNat : ℤ) else -(pyPct (-tp).toNat mt.toNat : ℤ)

/-- One row of the report: filename, display name, and the checker's
result for the loaded content. -/
structure FileReport where
  filename : String
  display_name : String
  result : CheckResult
deriving DecidableEq, Repr

/-- The aggregate of one grading pass. -/
structure Report where
  files : List FileReport
  total_points : ℤ
  max_total : ℤ
  progress_pct : ℤ
deriving DecidableEq, Repr

/-- Embedding of `check_all_files` from `run.py`, as a function of the six loaded
contents (`none` = file absent): runs the fixed `file_checks` table in
order, sums points, and computes
`progress_pct = int((total_points / max_total) * 100) if max_total > 0 else 0`. -/
def check_all_files (main vpc sec ec2 vars outs : Option String) : Report :=
  let rs : List FileReport :=
    [⟨"main.tf", "Provider Config", check_main_tf main⟩,
     ⟨"vpc.tf", "VPC & Networking", check_vpc_tf vpc⟩,
     ⟨"security.tf", "Security Group", check_security_tf sec⟩,
     ⟨"ec2.tf", "EC2 Instance", check_ec2_tf ec2⟩,
     ⟨"variables.tf", "Variables", check_variables_tf vars⟩,
     ⟨"outputs.tf", "Outputs", check_outputs_tf outs⟩]
  let total_points := (rs.map (fun r => r.result.points)).sum
  let max_total := (rs.map (fun r => r.result.max_points)).sum
  let progress_pct := if 0 < max_total then pyPctZ total_points max_total else 0
  ⟨rs, total_points, max_total, progress_pct⟩

/-- The three closing-remark classes of `check_all_files`. -/
inductive RunStatus where
  | complete
  | nearComplete
  | inProgress
deriving DecidableEq, Repr

/-- The final `if progress_pct == 100 / elif progress_pct >= 80 / else`
classification of `check_all_files`, a function of the percent alone. -/
def statusOf (progress_pct : ℤ) : RunStatus :=
  if progress_pct = 100 then .complete
  else if 80 ≤ progress_pct then .nearComplete
  else .inProgress

/-- Modelled from the spec: a presence sub-check's award — fixed points if
the marker is present and passes the comment-awareness predicate, else 0. -/
def presenceAward (content pattern : String) (n : ℤ) : ℤ :=
  if pyIn pattern content && !is_commented_out content pattern then n else 0

/-- Number of positions at which `p` occurs in `s`, every position counted
once. -/
def occ (p s : List Char) : ℕ :=
  (List.range (s.length + 1)).countP (fun i => p.isPrefixOf (s.drop i))

/-- Pattern `p` cannot overlap itself: no proper nonempty suffix of `p` is a prefix
of `p`.  For such a pattern Python's non-overlapping count coincides with
the number of occurrence positions. -/
def borderFree (p : List Char) : Prop :=
  ∀ j < p.length, 0 < j → (p.drop j).isPrefixOf p = false

lemma max_points_main (c : Option String) : (check_main_tf c).max_points = 10 := by
  cases c <;> rfl

lemma max_points_vpc (c : Option String) : (check_vpc_tf c).max_points = 20 := by
  cases c <;> rfl

lemma max_points_security (c : Option String) : (check_security_tf c).max_points = 20 := by
  cases c <;> rfl

lemma max_points_ec2 (c : Option String) : (check_ec2_tf c).max_points = 25 := by
  cases c <;> rfl

lemma max_points_variables (c : Option String) : (check_variables_tf c).max_points = 15 := by
  cases c <;> rfl

lemma max_points_outputs (c : Option String) : (check_outputs_tf c).max_points = 10 := by
  cases c <;> rfl

lemma ingressPoints_nonneg (s : String) : 0 ≤ ingressPoints s := by
  unfold ingressPoints
  split_ifs <;> omega

lemma ingressPoints_le_ten (s : String) : ingressPoints s ≤ 10 := by
  unfold ingressPoints
  split_ifs <;> omega

lemma points_main_bounds (c : Option String) :
    0 ≤ (check_main_tf c).points ∧ (check_main_tf c).points ≤ 10 := by
  cases c with
  | none => decide
  | some s =>
    simp only [check_main_tf]
    split_ifs <;> norm_num

lemma points_vpc_bounds (c : Option String) :
    0 ≤ (check_vpc_tf c).points ∧ (check_vpc_tf c).points ≤ 20 := by
  cases c with
  | none => decide
  | some s =>
    simp only [check_vpc_tf]
    split_ifs <;> norm_num

lemma points_security_bounds (c : Option String) :
    0 ≤ (check_security_tf c).points ∧ (check_security_tf c).points ≤ 20 := by
  cases c with
  | none => decide
  | some s =>
    have h1 := ingressPoints_nonneg s
    have h2 := ingressPoints_le_ten s
    simp only [check_security_tf]
    split_ifs <;> constructor <;> omega

lemma points_ec2_bounds (c : Option String) :
    0 ≤ (check_ec2_tf c).points ∧ (check_ec2_tf c).points ≤ 25 := by
  cases c with
  | none => decide
  | some s =>
    simp only [check_ec2_tf]
    split_ifs <;> norm_num

lemma points_variables_bounds (c : Option String) :
    0 ≤ (check_variables_tf c).points ∧ (check_variables_tf c).points ≤ 15 := by
  cases c with
  | none => decide
  | some s =>
    simp only [check_variables_tf, required_vars, varStep, List.map_cons, List.map_nil,
      List.sum_cons, List.sum_nil]
    split_ifs <;> norm_num

lemma points_outputs_bounds (c : Option String) :
    0 ≤ (check_outputs_tf c).points ∧ (check_outputs_tf c).points ≤ 10 := by
  cases c with
  | none => decide
  | some s =>
    simp only [check_outputs_tf, required_outputs, outStep, List.map_cons, List.map_nil,
      List.sum_cons, List.sum_nil]
    split_ifs <;> norm_num

lemma check_all_files_max_total (m v s e va o : Option String) :
    (check_all_files m v s e va o).max_total = 100 := by
  simp only [check_all_files, List.map_cons, List.map_nil, List.sum_cons, List.sum_nil,
    max_points_main, max_points_vpc, max_points_security, max_points_ec2,
    max_points_variables, max_points_outputs]
  norm_num

lemma check_all_files_total_points (m v s e va o : Option String) :
    (check_all_files m v s e va o).total_points =
      (check_main_tf m).points + (check_vpc_tf v).points + (check_security_tf s).points
        + (check_ec2_tf e).points + (check_variables_tf va).points
        + (check_outputs_tf o).points := by
  simp only [check_all_files, List.map_cons, List.map_nil, List.sum_cons, List.sum_nil]
  ring

lemma total_points_bounds (m v s e va o : Option String) :
    0 ≤ (check_all_files m v s e va o).total_points ∧
      (check_all_files m v s e va o).total_points ≤ 100 := by
  rw [check_all_files_total_points]
  have h1 := points_main_bounds m
  have h2 := points_vpc_bounds v
  have h3 := points_security_bounds s
  have h4 := points_ec2_bounds e
  have h5 := points_variables_bounds va
  have h6 := points_outputs_bounds o
  omega

lemma isPrefixOf_nil_of_ne (p : List Char) (hp : p ≠ []) : p.isPrefixOf ([] : List Char) = false := by
  cases p with
  | nil => exact absurd rfl hp
  | cons a l => rfl

lemma occ_nil (p : List Char) (hp : p ≠ []) : occ p [] = 0 := by
  simp [occ, List.countP_cons, isPrefixOf_nil_of_ne p hp]

lemma occ_cons (p : List Char) (c : Char) (rest : List Char) :
    occ p (c :: rest) = (if p.isPrefixOf (c :: rest) then 1 else 0) + occ p rest := by
  unfold occ
  rw [show (c :: rest).length + 1 = (rest.length + 1) + 1 from by simp,
    List.range_succ_eq_map, List.countP_cons, List.countP_map]
  have h : ((fun i => p.isPrefixOf ((c :: rest).drop i)) ∘ Nat.succ)
      = fun i => p.isPrefixOf (rest.drop i) := by
    funext i
    simp [Function.comp, List.drop_succ_cons]
  rw [h]
  simp only [List.drop_zero]
  split_ifs <;> omega

lemma occ_drop_one (p : List Char) (hp : p ≠ []) (s : List Char) :
    occ p s = (if p.isPrefixOf s then 1 else 0) + occ p (s.drop 1) := by
  cases s with
  | nil => simp [occ_nil p hp, isPrefixOf_nil_of_ne p hp]
  | cons c rest => simpa using occ_cons p c rest

lemma occ_drop_of_not_match (p : List Char) (hp : p ≠ []) (s : List Char) :
    ∀ k, 1 ≤ k → (∀ j, 1 ≤ j → j < k → p.isPrefixOf (s.drop j) = false) →
      occ p s = (if p.isPrefixOf s then 1 else 0) + occ p (s.drop k) := by
  intro k hk
  induction k, hk using Nat.le_induction with
  | base => intro _; exact occ_drop_one p hp s
  | succ k hk ih =>
    intro hno
    rw [ih (fun j h1 h2 => hno j h1 (by omega))]
    have hstep := occ_drop_one p hp (s.drop k)
    rw [hno k hk (by omega)] at hstep
    simp only [if_neg (by simp : ¬ false = true), List.drop_drop] at hstep
    rw [hstep]
    norm_num

lemma no_inner_match (p : List Char) (hbf : borderFree p) (s : List Char)
    (hps : p.isPrefixOf s = true) :
    ∀ j, 1 ≤ j → j < p.length → p.isPrefixOf (s.drop j) = false := by
  intro j h1 h2
  by_contra hcon
  have h : p.isPrefixOf (s.drop j) = true := by
    cases hb : p.isPrefixOf (s.drop j) with
    | false => exact absurd hb hcon
    | true => rfl
  rw [ List.isPrefixOf_iff_prefix] at hps h
  obtain ⟨t, ht⟩ := hps
  subst ht
  rw [List.drop_append_of_le_length (by omega)] at h
  obtain ⟨u, hu⟩ := h
  have hlen : (p.drop j).length = p.length - j := List.length_drop j p
  have htake : List.take (p.length - j) (p.drop j ++ t) = p.drop j := by
    rw [← hlen, List.take_left]
  have htake2 : List.take (p.length - j) (p ++ u) = List.take (p.length - j) p :=
    List.take_append_of_le_length (by omega)
  rw [hu, htake] at htake2
  have hpref : (p.drop j).isPrefixOf p = true := by
    rw [ List.isPrefixOf_iff_prefix, htake2]
    exact List.take_prefix _ p
  rw [hbf j h2 h1] at hpref
  exact Bool.false_ne_true hpref

lemma occ_head (p : List Char) (hbf : borderFree p) (hp : p ≠ []) (s : List Char)
    (hps : p.isPrefixOf s = true) :
    occ p s = 1 + occ p (s.drop p.length) := by
  have hlen : 1 ≤ p.length := by
    cases p with
    | nil => exact absurd rfl hp
    | cons a l => simp
  rw [occ_drop_of_not_match p hp s p.length hlen (no_inner_match p hbf s hps), if_pos hps]

lemma pyCountFuel_eq_occ (p : List Char) (hbf : borderFree p) (hp : p ≠ []) :
    ∀ fuel s, s.length ≤ fuel → pyCountFuel p fuel s = occ p s := by
  intro fuel
  induction fuel with
  | zero =>
    intro s hs
    have : s = [] := List.eq_nil_of_length_eq_zero (by omega)
    subst this
    simp [pyCountFuel, occ_nil p hp]
  | succ f ih =>
    intro s hs
    cases s with
    | nil => simp [pyCountFuel, occ_nil p hp]
    | cons c rest =>
      simp only [pyCountFuel]
      by_cases hm : p.isPrefixOf (c :: rest) = true
      · have hdrop : rest.drop (p.length - 1) = (c :: rest).drop p.length := by
          cases p with
          | nil => exact absurd rfl hp
          | cons a l => simp [List.drop_succ_cons]
        have hfuel : (rest.drop (p.length - 1)).length ≤ f := by
          rw [List.length_drop]
          simp only [List.length_cons] at hs
          omega
        rw [if_pos hm, ih _ hfuel, hdrop, occ_head p hbf hp _ hm]
        omega
      · have hm' : p.isPrefixOf (c :: rest) = false := by
          cases hb : p.isPrefixOf (c :: rest) with
          | false => rfl
          | true => exact absurd hb hm
        have hfuel : rest.length ≤ f := by
          simp only [List.length_cons] at hs
          omega
        rw [if_neg hm, ih rest hfuel, occ_cons, hm']
        simp

lemma countP_range_shift (q s : List Char) (d : ℕ) :
    ∀ m, (List.range m).countP (fun i => q.isPrefixOf (s.drop (i + d)))
      ≤ (List.range (m + d)).countP (fun i => q.isPrefixOf (s.drop i)) := by
  intro m
  induction m with
  | zero => simp
  | succ k ih =>
    rw [List.range_succ, List.countP_append,
      show k + 1 + d = (k + d) + 1 from by omega, List.range_succ (k + d),
      List.countP_append]
    simp only [List.countP_cons, List.countP_nil]
    omega

lemma countP_range_stable (q s : List Char) (hq : q ≠ []) (m : ℕ) (hm : s.length < m) :
    ∀ d, (List.range (m + d)).countP (fun i => q.isPrefixOf (s.drop i))
      = (List.range m).countP (fun i => q.isPrefixOf (s.drop i)) := by
  intro d
  induction d with
  | zero => rfl
  | succ k ih =>
    rw [show m + (k + 1) = (m + k) + 1 from by omega, List.range_succ, List.countP_append, ih]
    have hpast : q.isPrefixOf (s.drop (m + k)) = false := by
      have hnil : s.drop (m + k) = [] := List.drop_eq_nil_iff.mpr (by omega)
      rw [hnil]
      exact isPrefixOf_nil_of_ne q hq
    simp [List.countP_cons, hpast]

lemma occ_append_le (u q : List Char) (hq : q ≠ []) (s : List Char) :
    occ (u ++ q) s ≤ occ q s := by
  unfold occ
  have h1 : (List.range (s.length + 1)).countP (fun i => (u ++ q).isPrefixOf (s.drop i))
      ≤ (List.range (s.length + 1)).countP (fun i => q.isPrefixOf (s.drop (i + u.length))) := by
    apply List.countP_mono_left
    intro i _ hP
    rw [ List.isPrefixOf_iff_prefix] at hP ⊢
    obtain ⟨t, ht⟩ := hP
    rw [← List.drop_drop, ← ht, List.append_assoc, List.drop_left]
    exact ⟨t, rfl⟩
  have h2 := countP_range_shift q s u.length (s.length + 1)
  have h3 := countP_range_stable q s hq (s.length + 1) (by omega) u.length
  omega

lemma borderFree_ingress : borderFree "ingress \x7b".toList := by
  unfold borderFree
  decide

lemma borderFree_hash_ingress : borderFree "# ingress \x7b".toList := by
  unfold borderFree
  decide

lemma pyCount_hash_ingress_le (content : String) :
    pyCount "# ingress \x7b" content ≤ pyCount "ingress \x7b" content := by
  unfold pyCount
  rw [pyCountFuel_eq_occ _ borderFree_hash_ingress (by decide) _ _ le_rfl,
    pyCountFuel_eq_occ _ borderFree_ingress (by decide) _ _ le_rfl]
  have h : "# ingress \x7b".toList = "# ".toList ++ "ingress \x7b".toList := by decide
  rw [h]
  exact occ_append_le _ _ (by decide) _

lemma ingress_count_nonneg (s : String) : 0 ≤ ingress_count s := by
  unfold ingress_count
  have := pyCount_hash_ingress_le s
  omega

lemma icoLoop_eq_true_iff (pat : List Char) (lines : List (List Char)) :
    icoLoop pat lines = true ↔
      ∀ l ∈ lines, isSub pat l = true → lineInert l = true := by
  induction lines with
  | nil => simp [icoLoop]
  | cons line rest ih =>
    simp only [icoLoop]
    by_cases h1 : lineInert line = true
    · rw [if_pos h1, ih]
      simp only [List.mem_cons]
      constructor
      · intro h l hl hsub
        rcases hl with rfl | hl
        · exact h1
        · exact h l hl hsub
      · intro h l hl hsub
        exact h l (Or.inr hl) hsub
    · rw [if_neg h1]
      by_cases h2 : isSub pat line = true
      · rw [if_pos h2]
        simp only [Bool.false_eq_true, false_iff, not_forall]
        exact ⟨line, List.mem_cons_self line rest, h2, h1⟩
      · rw [if_neg h2, ih]
        simp only [List.mem_cons]
        constructor
        · intro h l hl hsub
          rcases hl with rfl | hl
          · exact absurd hsub h2
          · exact h l hl hsub
        · intro h l hl hsub
          exact h l (Or.inr hl) hsub

lemma pyPct_table :
    ∀ e < 101, pyPct e 100 = if e = 29 ∨ e = 57 ∨ e = 58 then e - 1 else e := by
  decide

lemma check_all_files_progress_pct (m v s e va o : Option String) :
    (check_all_files m v s e va o).progress_pct
      = pyPctZ (check_all_files m v s e va o).total_points 100 := by
  have h := check_all_files_max_total m v s e va o
  simp only [check_all_files] at h ⊢
  rw [h, if_pos (by norm_num)]

/-- Claim C3, counterexample: a `PermissionError` is not mapped to the
absent sentinel — `load_tf_content` propagates it, so the run fails
instead of degrading that file to zero points. -/
theorem claim_C3_counterexample :
    load_tf_content ReadOutcome.permissionError = Except.error "PermissionError"
      ∧ load_tf_content ReadOutcome.permissionError ≠ Except.ok none := by
  exact ⟨rfl, fun h => Except.noConfusion h⟩

/-- Claim C3, amended: the loader returns the file's text when readable
and the absent sentinel exactly on `FileNotFoundError`; any other read
failure (permission error, other OS error) propagates as an uncaught
exception rather than being treated as absent. -/
theorem claim_C3_amended (t : String) :
    load_tf_content (ReadOutcome.ok t) = Except.ok (some t)
      ∧ load_tf_content ReadOutcome.fileNotFound = Except.ok none
      ∧ load_tf_content ReadOutcome.permissionError = Except.error "PermissionError"
      ∧ load_tf_content ReadOutcome.otherOSError = Except.error "OSError" :=
  ⟨rfl, rfl, rfl, rfl⟩

/-- Claim C4: `is_commented_out content pattern` is `true` iff every line
of `content` containing a literal occurrence of `pattern` is inert
(stripped form empty or starting with `#`); in particular the empty text
yields `true` for every pattern. -/
theorem claim_C4 (content pattern : String) :
    (is_commented_out content pattern = true ↔
      ∀ line ∈ pyLines content, isSub pattern.toList line = true → lineInert line = true)
    ∧ is_commented_out "" pattern = true := by
  constructor
  · exact icoLoop_eq_true_iff pattern.toList (pyLines content)
  · have hempty : pyLines "" = [[]] := rfl
    unfold is_commented_out
    rw [hempty]
    simp [icoLoop, lineInert, pyStrip]

/-- Claim C6: a text with exactly two active `ingress \x7b` blocks and one
commented-out `# ingress \x7b` block (so the full count of the
ingress opener is 3 and the count of its commented form is 1) yields an ingress count of 2 and exactly
`2 * 3 = 6` points; a count of at least 3 awards the full 10; a count of
0 awards 0. -/
theorem claim_C6 (s : String) (h3 : pyCount "ingress \x7b" s = 3)
    (h1 : pyCount "# ingress \x7b" s = 1) :
    ingress_count s = 2 ∧ ingressPoints s = 6
      ∧ (∀ t, 3 ≤ ingress_count t → ingressPoints t = 10)
      ∧ (∀ t, ingress_count t = 0 → ingressPoints t = 0) := by
  have hc : ingress_count s = 2 := by
    unfold ingress_count
    rw [h3, h1]
    norm_num
  refine ⟨hc, ?_, ?_, ?_⟩
  · unfold ingressPoints
    rw [hc]
    norm_num
  · intro t ht
    unfold ingressPoints
    rw [if_pos ht]
  · intro t ht
    unfold ingressPoints
    rw [ht]
    norm_num

/-- Witness for C6 at a concrete text with two active and one
commented-out ingress block. -/
theorem claim_C6_witness :
    ingress_count "ingress \x7bingress \x7b# ingress \x7b" = 2
      ∧ ingressPoints "ingress \x7bingress \x7b# ingress \x7b" = 6 := by
  have h := claim_C6 "ingress \x7bingress \x7b# ingress \x7b" (by decide) (by decide)
  exact ⟨h.1, h.2.1⟩

/-- Claim C7: the closing classification is a function of the percent
alone: complete iff it is 100, near-complete iff it is in `[80, 100)`,
in progress iff it is below 80. -/
theorem claim_C7 (p : ℤ) (hp : p ≤ 100) :
    (statusOf p = RunStatus.complete ↔ p = 100)
      ∧ (statusOf p = RunStatus.nearComplete ↔ 80 ≤ p ∧ p < 100)
      ∧ (statusOf p = RunStatus.inProgress ↔ p < 80) := by
  unfold statusOf
  refine ⟨?_, ?_, ?_⟩ <;> split_ifs <;> simp_all <;> omega

/-- Witness for C7 at percent 90. -/
theorem claim_C7_witness : statusOf 90 = RunStatus.nearComplete :=
  (claim_C7 90 (by norm_num)).2.1.mpr (by norm_num)

/-- Claim C8: each checker maps the absent sentinel to zero points and a
single failing existence item with detail "File not found", alongside the
file's fixed `points_possible`. -/
theorem claim_C8 :
    check_main_tf none = ⟨[⟨"main.tf exists", false, "File not found"⟩], 0, 10⟩
      ∧ check_vpc_tf none = ⟨[⟨"vpc.tf exists", false, "File not found"⟩], 0, 20⟩
      ∧ check_security_tf none = ⟨[⟨"security.tf exists", false, "File not found"⟩], 0, 20⟩
      ∧ check_ec2_tf none = ⟨[⟨"ec2.tf exists", false, "File not found"⟩], 0, 25⟩
      ∧ check_variables_tf none = ⟨[⟨"variables.tf exists", false, "File not found"⟩], 0, 15⟩
      ∧ check_outputs_tf none = ⟨[⟨"outputs.tf exists", false, "File not found"⟩], 0, 10⟩ := by
  refine ⟨rfl, rfl, rfl, rfl, rfl, rfl⟩

/-- Claim C5: every checker keeps `0 ≤ points_earned ≤ points_possible`
for every input (absent or arbitrary text); the ingress count is never
negative and the ingress sub-check never awards more than its full 10
points. -/
theorem claim_C5 (c : Option String) :
    (0 ≤ (check_main_tf c).points ∧ (check_main_tf c).points ≤ (check_main_tf c).max_points)
      ∧ (0 ≤ (check_vpc_tf c).points ∧ (check_vpc_tf c).points ≤ (check_vpc_tf c).max_points)
      ∧ (0 ≤ (check_security_tf c).points
          ∧ (check_security_tf c).points ≤ (check_security_tf c).max_points)
      ∧ (0 ≤ (check_ec2_tf c).points ∧ (check_ec2_tf c).points ≤ (check_ec2_tf c).max_points)
      ∧ (0 ≤ (check_variables_tf c).points
          ∧ (check_variables_tf c).points ≤ (check_variables_tf c).max_points)
      ∧ (0 ≤ (check_outputs_tf c).points
          ∧ (check_outputs_tf c).points ≤ (check_outputs_tf c).max_points)
      ∧ (∀ s : String, 0 ≤ ingress_count s ∧ ingressPoints s ≤ 10) := by
  rw [max_points_main, max_points_vpc, max_points_security, max_points_ec2,
    max_points_variables, max_points_outputs]
  exact ⟨points_main_bounds c, points_vpc_bounds c, points_security_bounds c,
    points_ec2_bounds c, points_variables_bounds c, points_outputs_bounds c,
    fun s => ⟨ingress_count_nonneg s, ingressPoints_le_ten s⟩⟩

/-- Claim C9: every checker reports its fixed `points_possible`
(10/20/20/25/15/10) on every input, the aggregated `max_total` is always
100, and the all-absent run earns 0 of 100. -/
theorem claim_C9 :
    (∀ c, (check_main_tf c).max_points = 10)
      ∧ (∀ c, (check_vpc_tf c).max_points = 20)
      ∧ (∀ c, (check_security_tf c).max_points = 20)
      ∧ (∀ c, (check_ec2_tf c).max_points = 25)
      ∧ (∀ c, (check_variables_tf c).max_points = 15)
      ∧ (∀ c, (check_outputs_tf c).max_points = 10)
      ∧ (∀ m v s e va o, (check_all_files m v s e va o).max_total = 100)
      ∧ (check_all_files none none none none none none).total_points = 0
      ∧ (check_all_files none none none none none none).max_total = 100 := by
  refine ⟨max_points_main, max_points_vpc, max_points_security, max_points_ec2,
    max_points_variables, max_points_outputs, check_all_files_max_total, ?_, ?_⟩
  · rw [check_all_files_total_points]
    rfl
  · exact check_all_files_max_total none none none none none none

/-- Claim C10: a present-but-empty file yields zero points and the full
fixed-order list of failing sub-check items (4/5/3/4/5/4 items), not the
single existence item, and no "File not found" detail. -/
theorem claim_C10 :
    check_main_tf (some "")
        = ⟨[⟨"Terraform block", false, "Not configured or commented"⟩,
            ⟨"AWS provider defined", false, "Missing or commented"⟩,
            ⟨"Provider configured", false, "Missing or commented"⟩,
            ⟨"Default tags", false, "Missing"⟩], 0, 10⟩
      ∧ check_vpc_tf (some "")
        = ⟨[⟨"VPC resource", false, "Missing or commented"⟩,
            ⟨"Subnet resource", false, "Missing or commented"⟩,
            ⟨"Internet gateway", false, "Missing or commented"⟩,
            ⟨"Route table", false, "Missing or commented"⟩,
            ⟨"Route association", false, "Missing or commented"⟩], 0, 20⟩
      ∧ check_security_tf (some "")
        = ⟨[⟨"Security group", false, "Missing or commented"⟩,
            ⟨"Ingress rules", false, "Missing"⟩,
            ⟨"Egress rule", false, "Missing or commented"⟩], 0, 20⟩
      ∧ check_ec2_tf (some "")
        = ⟨[⟨"AMI data source", false, "Missing or commented"⟩,
            ⟨"EC2 instance", false, "Missing or commented"⟩,
            ⟨"User data", false, "Missing or commented"⟩,
            ⟨"Security group ref", false, "Missing or commented"⟩], 0, 25⟩
      ∧ check_variables_tf (some "")
        = ⟨[⟨"var.aws_region", false, "Missing or commented"⟩,
            ⟨"var.project_name", false, "Missing or commented"⟩,
            ⟨"var.vpc_cidr", false, "Missing or commented"⟩,
            ⟨"var.instance_type", false, "Missing or commented"⟩,
            ⟨"var.allowed_ssh_cidr", false, "Missing or commented"⟩], 0, 15⟩
      ∧ check_outputs_tf (some "")
        = ⟨[⟨"output.vpc_id", false, "Missing or commented"⟩,
            ⟨"output.instance_id", false, "Missing or commented"⟩,
            ⟨"output.instance_public_ip", false, "Missing or commented"⟩,
            ⟨"output.website_url", false, "Missing or commented"⟩], 0, 10⟩
      ∧ (∀ item ∈ (check_main_tf (some "")).checks, item.detail ≠ "File not found")
      ∧ (∀ item ∈ (check_security_tf (some "")).checks, item.detail ≠ "File not found") := by
  decide

/-- Claim C1, counterexample: in the text `"# default_tags"` every
occurrence of `default_tags` lies on a comment line (the comment-awareness
predicate reports it commented out), yet the default-tags sub-check of
`check_main_tf` passes and awards its 2 points. -/
theorem claim_C1_counterexample :
    is_commented_out "# default_tags" "default_tags" = true
      ∧ (check_main_tf (some "# default_tags")).points = 2
      ∧ (check_main_tf (some "# default_tags")).checks
        = [⟨"Terraform block", false, "Not configured or commented"⟩,
           ⟨"AWS provider defined", false, "Missing or commented"⟩,
           ⟨"Provider configured", false, "Missing or commented"⟩,
           ⟨"Default tags", true, "Configured"⟩] := by
  decide

/-- Claim C1, amended: every presence sub-check awards its fixed points
exactly when its marker string(s) are present and pass the
comment-awareness predicate — except the default-tags sub-check of
`check_main_tf`, which awards its 2 points whenever `default_tags` occurs
anywhere in the text, commented or not. -/
theorem claim_C1_amended (c : String) :
    (check_main_tf (some c)).points
        = presenceAward c "terraform \x7b" 2
          + (if pyIn "required_providers" c && pyIn "aws" c
                && !is_commented_out c "required_providers" then 3 else 0)
          + presenceAward c "provider \"aws\"" 3
          + (if pyIn "default_tags" c then 2 else 0)
      ∧ (check_vpc_tf (some c)).points
        = presenceAward c "resource \"aws_vpc\"" 5
          + presenceAward c "resource \"aws_subnet\"" 5
          + presenceAward c "resource \"aws_internet_gateway\"" 4
          + presenceAward c "resource \"aws_route_table\"" 3
          + presenceAward c "resource \"aws_route_table_association\"" 3
      ∧ (check_security_tf (some c)).points
        = presenceAward c "resource \"aws_security_group\"" 5 + ingressPoints c
          + presenceAward c "egress \x7b" 5
      ∧ (check_ec2_tf (some c)).points
        = presenceAward c "data \"aws_ami\"" 5
          + presenceAward c "resource \"aws_instance\"" 10
          + presenceAward c "user_data" 5
          + presenceAward c "vpc_security_group_ids" 5
      ∧ (check_variables_tf (some c)).points
        = presenceAward c "variable \"aws_region\"" 3
          + presenceAward c "variable \"project_name\"" 2
          + presenceAward c "variable \"vpc_cidr\"" 3
          + presenceAward c "variable \"instance_type\"" 3
          + presenceAward c "variable \"allowed_ssh_cidr\"" 2
      ∧ (check_outputs_tf (some c)).points
        = presenceAward c "output \"vpc_id\"" 2
          + presenceAward c "output \"instance_id\"" 2
          + presenceAward c "output \"instance_public_ip\"" 3
          + presenceAward c "output \"website_url\"" 3 := by
  have e1 : ("variable \"" ++ "aws_region" ++ "\"" : String) = "variable \"aws_region\"" := rfl
  have e2 : ("variable \"" ++ "project_name" ++ "\"" : String)
      = "variable \"project_name\"" := rfl
  have e3 : ("variable \"" ++ "vpc_cidr" ++ "\"" : String) = "variable \"vpc_cidr\"" := rfl
  have e4 : ("variable \"" ++ "instance_type" ++ "\"" : String)
      = "variable \"instance_type\"" := rfl
  have e5 : ("variable \"" ++ "allowed_ssh_cidr" ++ "\"" : String)
      = "variable \"allowed_ssh_cidr\"" := rfl
  have f1 : ("output \"" ++ "vpc_id" ++ "\"" : String) = "output \"vpc_id\"" := rfl
  have f2 : ("output \"" ++ "instance_id" ++ "\"" : String) = "output \"instance_id\"" := rfl
  have f3 : ("output \"" ++ "instance_public_ip" ++ "\"" : String)
      = "output \"instance_public_ip\"" := rfl
  have f4 : ("output \"" ++ "website_url" ++ "\"" : String) = "output \"website_url\"" := rfl
  refine ⟨?_, ?_, ?_, ?_, ?_, ?_⟩ <;>
    simp only [check_main_tf, check_vpc_tf, check_security_tf, check_ec2_tf,
      check_variables_tf, check_outputs_tf, presenceAward, required_vars, required_outputs,
      varStep, outStep, List.map_cons, List.map_nil, List.sum_cons, List.sum_nil,
      e1, e2, e3, e4, e5, f1, f2, f3, f4] <;>
    split_ifs <;> norm_num

/-- Claim C2, counterexample: a run earning 29 of 100 points has an exact
percentage of 29 (`100 * 29 / 100`), but the report's percent is 28 —
`int((29/100)*100)` truncates the binary64 product `28.999999999999996`. -/
theorem claim_C2_counterexample :
    let r := check_all_files (some "terraform \x7b")
      (some ("resource \"aws_vpc\"\nresource \"aws_subnet\"\nresource \"aws_internet_gateway\"\n"
        ++ "resource \"aws_route_table\"\nresource \"aws_route_table_association\""))
      none (some "data \"aws_ami\"") (some "variable \"project_name\"") none
    r.total_points = 29 ∧ r.max_total = 100 ∧ 100 * r.total_points = 29 * r.max_total
      ∧ r.progress_pct = 28 ∧ r.progress_pct ≠ 29 := by
  decide

/-- Claim C2, amended: the report's percent is
`int((total_earned / total_possible) * 100)` evaluated in binary64; with
the fixed file set (`total_possible = 100`) it equals `total_earned`
except when `total_earned` is 29, 57 or 58, where float truncation drops
it one below the exact `round(100 * total_earned / total_possible)`. -/
theorem claim_C2_amended (m v s e va o : Option String) :
    (check_all_files m v s e va o).progress_pct
      = (if (check_all_files m v s e va o).total_points = 29
            ∨ (check_all_files m v s e va o).total_points = 57
            ∨ (check_all_files m v s e va o).total_points = 58
         then (check_all_files m v s e va o).total_points - 1
         else (check_all_files m v s e va o).total_points) := by
  have hb := total_points_bounds m v s e va o
  rw [check_all_files_progress_pct]
  set tp := (check_all_files m v s e va o).total_points with htp
  obtain ⟨h0, h100⟩ := hb
  have htab := pyPct_table tp.toNat (by omega)
  unfold pyPctZ
  rw [if_pos h0]
  have h100' : (100 : ℤ).toNat = 100 := rfl
  rw [h100', htab]
  by_cases hc : tp = 29 ∨ tp = 57 ∨ tp = 58
  · have hc' : tp.toNat = 29 ∨ tp.toNat = 57 ∨ tp.toNat = 58 := by omega
    rw [if_pos hc', if_pos hc]
    omega
  · have hc' : ¬(tp.toNat = 29 ∨ tp.toNat = 57 ∨ tp.toNat = 58) := by omega
    rw [if_neg hc', if_neg hc]
    omega

/-- Witness for C3's amended statement at a concrete text. -/
theorem claim_C3_amended_witness :
    load_tf_content (ReadOutcome.ok "terraform") = Except.ok (some "terraform")
      ∧ load_tf_content ReadOutcome.fileNotFound = Except.ok none
      ∧ load_tf_content ReadOutcome.permissionError = Except.error "PermissionError"
      ∧ load_tf_content ReadOutcome.otherOSError = Except.error "OSError" :=
  claim_C3_amended "terraform"

/-- Witness for C4 at a concrete commented-out occurrence. -/
theorem claim_C4_witness : is_commented_out "# default_tags" "default_tags" = true := by
  have h := (claim_C4 "# default_tags" "default_tags").1
  exact h.mpr (by decide)

/-- Witness for C5 at a concrete security text with one ingress block. -/
theorem claim_C5_witness :
    (0 ≤ (check_security_tf (some "ingress \x7b")).points
      ∧ (check_security_tf (some "ingress \x7b")).points
        ≤ (check_security_tf (some "ingress \x7b")).max_points)
      ∧ 0 ≤ ingress_count "ingress \x7b" ∧ ingressPoints "ingress \x7b" ≤ 10 :=
  ⟨(claim_C5 (some "ingress \x7b")).2.2.1, (claim_C5 (some "ingress \x7b")).2.2.2.2.2.2 "ingress \x7b"⟩

/-- Witness for C1's amended statement at the commented default-tags text. -/
theorem claim_C1_amended_witness :
    (check_main_tf (some "# default_tags")).points
      = presenceAward "# default_tags" "terraform \x7b" 2
        + (if pyIn "required_providers" "# default_tags" && pyIn "aws" "# default_tags"
              && !is_commented_out "# default_tags" "required_providers" then 3 else 0)
        + presenceAward "# default_tags" "provider \"aws\"" 3
        + (if pyIn "default_tags" "# default_tags" then 2 else 0) :=
  (claim_C1_amended "# default_tags").1

/-- Witness for C2's amended statement at the all-absent run. -/
theorem claim_C2_amended_witness :
    (check_all_files none none none none none none).progress_pct
      = (if (check_all_files none none none none none none).total_points = 29
            ∨ (check_all_files none none none none none none).total_points = 57
            ∨ (check_all_files none none none none none none).total_points = 58
         then (check_all_files none none none none none none).total_points - 1
         else (check_all_files none none none none none none).total_points) :=
  claim_C2_amended none none none none none none
